import Mathlib

/-!
# mupdftoraster: a shallow embedding of `cupsfilters/mupdftoraster.c`

The development embeds the document sniffer (`parse_doc_type`), the inline
option scanner (`parse_pdf_header_options`), the argument builder
(`add_pdf_header_options`), the process supervisor (`mutool_spawn`) and the
driver (`mupdftoraster`) and settles the statements of the specification
about them.

Conventions of the embedding.

* A byte is a `Nat`; the staged file is the list of its bytes.  `rewind(fp)`
  followed by reads is modelled by reading from the whole content.
* A `char *` is the list of bytes from the pointed position up to (not
  including) the terminating NUL of the buffer; reading at the end of the list
  yields the terminator `0`.  `p + 1` is `List.tail`, `buf + n` is `List.drop`.
* A null pointer handed to a function that dereferences it is undefined
  behaviour; the embedding reports it as `Outcome.fault`.
* `int` and `unsigned` are 32 bits wide.  The fields of `cups_page_header2_t`
  used here (`HWResolution`, `PageSize`, `cupsWidth`, `cupsHeight`,
  `NumCopies`) are declared `unsigned` in `cups/raster.h`; stores and
  products are reduced modulo `2 ^ 32`.
-/

namespace MuPdfToRaster

/-! ## Outcomes -/

/-- Result of running a piece of the program: it returns a value, it runs into
undefined behaviour (a null pointer is dereferenced), it is still blocked in
`wait` when the scripted environment ends, or the recursion budget of the
embedding is used up (shown below never to happen). -/
inductive Outcome (α : Type) where
  | returned (a : α)
  | fault
  | blocked
  | fuel
  deriving DecidableEq, Repr

/-! ## C library primitives -/

/-- ASCII codes of a string literal, used to write byte strings readably. -/
def bytes (s : String) : List Nat :=
  s.toList.map Char.toNat

/-- Inner loop of `fgets`: read at most `n` bytes from the stream, stopping
after a newline (code 10) or at end of file.  Returns the bytes stored and the
rest of the stream. -/
def readChunk : Nat → List Nat → List Nat × List Nat
  | 0, s => ([], s)
  | _ + 1, [] => ([], [])
  | n + 1, c :: s =>
    if c = 10 then ([c], s)
    else ((c :: (readChunk n s).1), (readChunk n s).2)

/-- `fgets(buf, size, fp)`: `none` is the NULL result (end of file before any
byte was read); otherwise the buffer content (at most `size - 1` bytes, the
newline included) and the rest of the stream. -/
def fgets (size : Nat) (s : List Nat) : Option (List Nat × List Nat) :=
  match s with
  | [] => none
  | _ :: _ => some (readChunk (size - 1) s)

/-- `strncmp(a, b, n)`: compares at most `n` bytes, stopping at the first
difference or at a NUL. -/
def strncmp : List Nat → List Nat → Nat → Int
  | _, _, 0 => 0
  | a, b, n + 1 =>
    if a.headD 0 ≠ b.headD 0 then (a.headD 0 : Int) - (b.headD 0 : Int)
    else if a.headD 0 = 0 then 0
    else strncmp a.tail b.tail n

/-- `tolower` in the C locale. -/
def tolower (c : Nat) : Nat :=
  if 65 ≤ c ∧ c ≤ 90 then c + 32 else c

/-- `strncasecmp(a, b, n)`: as `strncmp`, comparing the lower-cased bytes. -/
def strncasecmp : List Nat → List Nat → Nat → Int
  | _, _, 0 => 0
  | a, b, n + 1 =>
    if tolower (a.headD 0) ≠ tolower (b.headD 0) then
      (tolower (a.headD 0) : Int) - (tolower (b.headD 0) : Int)
    else if a.headD 0 = 0 then 0
    else strncasecmp a.tail b.tail n

/-- `strchr(s, c)`: the tail of `s` starting at the first occurrence of `c`
before the terminator, `none` for the NULL result. -/
def strchr : List Nat → Nat → Option (List Nat)
  | [], c => if c = 0 then some [] else none
  | x :: xs, c =>
    if x = c then some (x :: xs)
    else if x = 0 then none
    else strchr xs c

/-- `isspace` in the C locale: space, `\t`, `\n`, `\v`, `\f`, `\r`. -/
def isspace (c : Nat) : Bool :=
  c = 32 || (9 ≤ c && c ≤ 13)

/-- Digit loop of `atoi`: accumulate the leading decimal digits. -/
def atoiDigits : List Nat → Nat → Nat
  | [], acc => acc
  | c :: s, acc =>
    if 48 ≤ c ∧ c ≤ 57 then atoiDigits s (10 * acc + (c - 48)) else acc

/-- Sign and digits of `atoi`, after the leading white space. -/
def atoiSigned : List Nat → Int
  | [] => 0
  | c :: s =>
    if c = 45 then - (atoiDigits s 0 : Int)
    else if c = 43 then (atoiDigits s 0 : Int)
    else (atoiDigits (c :: s) 0 : Int)

/-- The number `strtol` reads in base 10, before any range check: skip white
space, read an optional sign and the leading decimal digits; `0` when there
are none. -/
def atoiValue : List Nat → Int
  | [] => 0
  | c :: s => if isspace c then atoiValue s else atoiSigned (c :: s)

/-- `strtol(s, NULL, 10)` with a 64-bit `long`: the value read, saturated at
`LONG_MIN` and `LONG_MAX`. -/
def strtol (s : List Nat) : Int :=
  max (-9223372036854775808) (min 9223372036854775807 (atoiValue s))

/-- `atoi(s)`, which the C library computes as `(int) strtol(s, NULL, 10)`:
the low 32 bits of the saturated value, read as a signed `int`. -/
def atoi (s : List Nat) : Int :=
  (strtol s + 2147483648) % 4294967296 - 2147483648

/-- Conversion of an `int` to `unsigned` on assignment to a header field. -/
def toUnsigned (x : Int) : Nat :=
  (x % 4294967296).toNat

/-- Reading of an `unsigned` by the `%d` conversion: the same 32 bits as a
signed `int`. -/
def toSigned (x : Nat) : Int :=
  if x % 4294967296 < 2147483648 then (x % 4294967296 : Nat) else (x % 4294967296 : Nat) - 4294967296

/-- The `%d` conversion of `snprintf` applied to an `unsigned` header field. -/
def fmt_d (x : Nat) : String :=
  toString (toSigned x)

/-- `snprintf(tmpstr, 1024, "%s", s)`: the string cut to the 1023 bytes the
buffer holds. -/
def snprintf_s (s : String) : String :=
  String.mk (s.toList.take 1023)

/-! ## The document sniffer -/

/-- Embedding of `parse_doc_type` (lines 65-84): `1` for empty input, `0` when
the four bytes read are the PDF marker, `-1` otherwise. -/
def parse_doc_type (fp : List Nat) : Int :=
  match fgets 5 fp with
  | none => 1
  | some (buf, _) =>
    if strncmp buf (bytes "%PDF") 4 = 0 then 0
    else -1

/-! ## The page header -/

/-- The fields of `mupdf_page_header` (`cups_page_header2_t`) the filter
reads or writes.  `HWResolution` and `PageSize` are the two-element arrays. -/
structure mupdf_page_header where
  HWResolution : Nat × Nat
  PageSize : Nat × Nat
  cupsWidth : Nat
  cupsHeight : Nat
  cupsColorSpace : Nat
  NumCopies : Nat
  Collate : Bool
  MirrorPrint : Bool
  Orientation : Nat
  deriving DecidableEq, Repr

/-- Values of `cups_cspace_t` (`cups/raster.h`) named by the source. -/
def CUPS_CSPACE_W : Nat := 0
/-- Value of `cups_cspace_t`: red, green, blue. -/
def CUPS_CSPACE_RGB : Nat := 1
/-- Value of `cups_cspace_t`: black. -/
def CUPS_CSPACE_K : Nat := 3
/-- Value of `cups_cspace_t`: cyan, magenta, yellow. -/
def CUPS_CSPACE_CMY : Nat := 4
/-- Value of `cups_cspace_t`: cyan, magenta, yellow, black. -/
def CUPS_CSPACE_CMYK : Nat := 6
/-- Value of `cups_cspace_t`: standard luminance (grayscale). -/
def CUPS_CSPACE_SW : Nat := 18
/-- Value of `cups_cspace_t`: sRGB. -/
def CUPS_CSPACE_SRGB : Nat := 19
/-- Value of `cups_cspace_t`: Adobe RGB. -/
def CUPS_CSPACE_ADOBERGB : Nat := 20

/-! ## The inline option scanner -/

/-- Number of lines scanned after the marker line. -/
def PDF_MAX_CHECK_COMMENT_LINES : Nat := 20

/-- The loop `while (fgets(...) != 0) if (strncmp(buf,"%PDF",4) == 0) break;`
(lines 94-98).  Returns the stream position after the marker line, or the end
of the stream.  The first argument bounds the number of iterations. -/
def skip_until_marker : Nat → List Nat → Outcome (List Nat)
  | 0, _ => Outcome.fuel
  | k + 1, s =>
    match fgets 4096 s with
    | none => Outcome.returned s
    | some (buf, rest) =>
      if strncmp buf (bytes "%PDF") 4 = 0 then Outcome.returned rest
      else skip_until_marker k rest

/-- The loop `while (*p == ' ' || *p == '\t') p++;` (line 110). -/
def skip_blanks : List Nat → List Nat
  | [] => []
  | c :: s => if c = 32 ∨ c = 9 then skip_blanks s else c :: s

/-- Body of the scanning loop for one line held in `buf` (lines 101-116).
`strchr` returning NULL leads to `atoi(NULL + 1)`, respectively `*p` with `p`
NULL: undefined behaviour. -/
def directive_line (buf : List Nat) (h : mupdf_page_header) : Outcome mupdf_page_header :=
  if strncmp buf (bytes "%%PDFTOPDFNumCopies") 19 = 0 then
    match strchr (buf.drop 19) 58 with
    | none => Outcome.fault
    | some p => Outcome.returned { h with NumCopies := toUnsigned (atoi p.tail) }
  else if strncmp buf (bytes "%%PDFTOPDFCollate") 17 = 0 then
    match strchr (buf.drop 17) 58 with
    | none => Outcome.fault
    | some p =>
      if strncasecmp (skip_blanks p) (bytes "true") 4 = 0 then
        Outcome.returned { h with Collate := true }
      else
        Outcome.returned { h with Collate := false }
  else Outcome.returned h

/-- The loop `for (i = 0; i < PDF_MAX_CHECK_COMMENT_LINES; i++)` (lines
99-117); the first argument is the number of iterations left. -/
def scan_directives : Nat → List Nat → mupdf_page_header → Outcome mupdf_page_header
  | 0, _, h => Outcome.returned h
  | i + 1, s, h =>
    match fgets 4096 s with
    | none => Outcome.returned h
    | some (buf, rest) =>
      match directive_line buf h with
      | Outcome.returned h1 => scan_directives i rest h1
      | o => o

/-- Embedding of `parse_pdf_header_options` (lines 86-118) on the staged
content `fp`.  Every iteration of the first loop consumes a byte, so
`fp.length + 1` iterations are enough (`skip_until_marker_total`). -/
def parse_pdf_header_options (fp : List Nat) (h : mupdf_page_header) :
    Outcome mupdf_page_header :=
  match skip_until_marker (fp.length + 1) fp with
  | Outcome.returned s => scan_directives PDF_MAX_CHECK_COMMENT_LINES s h
  | Outcome.fault => Outcome.fault
  | Outcome.blocked => Outcome.blocked
  | Outcome.fuel => Outcome.fuel

/-- The buffers the scanning loop reads: up to `n` successive results of
`fgets(buf, 4096, fp)` from the stream position `s`. -/
def read_lines : Nat → List Nat → List (List Nat)
  | 0, _ => []
  | n + 1, s =>
    match fgets 4096 s with
    | none => []
    | some (buf, rest) => buf :: read_lines n rest

/-- The lines `parse_pdf_header_options` scans in the staged content `fp`: the
(at most 20) buffers read after the marker line. -/
def scanned_lines (fp : List Nat) : List (List Nat) :=
  match skip_until_marker (fp.length + 1) fp with
  | Outcome.returned s => read_lines PDF_MAX_CHECK_COMMENT_LINES s
  | _ => []

/-- The line in `buf` starts with one of the two directive keywords and has no
':' after it: the case in which `strchr` returns NULL in `directive_line`. -/
def missing_separator (buf : List Nat) : Bool :=
  if strncmp buf (bytes "%%PDFTOPDFNumCopies") 19 = 0 then
    (strchr (buf.drop 19) 58).isNone
  else if strncmp buf (bytes "%%PDFTOPDFCollate") 17 = 0 then
    (strchr (buf.drop 17) 58).isNone
  else false

/-- The bytes of a sequence of newline-terminated lines, given without their
newlines. -/
def unlines : List (List Nat) → List Nat
  | [] => []
  | b :: bs => b ++ 10 :: unlines bs

/-! ## Resolution defaulting (driver, lines 549-569) -/

/-- The part of a PPD file the driver reads: the value of the
`DefaultResolution` attribute when `ppdFindAttr` finds it. -/
structure ppd_file where
  DefaultResolution : Option (List Nat)
  deriving DecidableEq, Repr

/-- Lines 549-569 of `mupdftoraster`: when the prepared resolution is the
sentinel 100x100, take it from the PPD attribute or fall back to 300x300,
then recompute the pixel dimensions. -/
def default_resolution (ppd : Option ppd_file) (h : mupdf_page_header) : mupdf_page_header :=
  if h.HWResolution.1 = 100 ∧ h.HWResolution.2 = 100 then
    let r : Nat × Nat :=
      match ppd with
      | none => (300, 300)
      | some f =>
        match f.DefaultResolution with
        | none => (300, 300)
        | some value =>
          let r0 := toUnsigned (atoi value)
          let r1 :=
            match strchr value 120 with
            | some p => toUnsigned (atoi p)
            | none => r0
          let r0 := if r0 ≤ 0 then 300 else r0
          let r1 := if r1 ≤ 0 then r0 else r1
          (r0, r1)
    { h with
      HWResolution := r
      cupsWidth := r.1 * h.PageSize.1 % 4294967296 / 72
      cupsHeight := r.2 * h.PageSize.2 % 4294967296 / 72 }
  else h

/-! ## The argument builder -/

/-- Embedding of `add_pdf_header_options` (lines 120-164): appends the
resolution, width, height and colour flags to the argument array. -/
def add_pdf_header_options (h : mupdf_page_header) (mupdf_args : List String) : List String :=
  let a1 :=
    if h.HWResolution.1 ≠ 100 ∨ h.HWResolution.2 ≠ 100 then
      mupdf_args ++ ["-r" ++ fmt_d h.HWResolution.1 ++ "x" ++ fmt_d h.HWResolution.2]
    else
      mupdf_args ++ ["-r100x100"]
  let a2 := a1 ++ ["-w" ++ fmt_d h.cupsWidth]
  let a3 := a2 ++ ["-h" ++ fmt_d h.cupsHeight]
  let flag :=
    if h.cupsColorSpace = CUPS_CSPACE_RGB ∨ h.cupsColorSpace = CUPS_CSPACE_CMY ∨
        h.cupsColorSpace = CUPS_CSPACE_SRGB ∨ h.cupsColorSpace = CUPS_CSPACE_ADOBERGB then
      "-crgb"
    else if h.cupsColorSpace = CUPS_CSPACE_CMYK then "-ccmyk"
    else if h.cupsColorSpace = CUPS_CSPACE_SW then "-cgray"
    else "-cmono"
  a3 ++ [flag]

/-! ## The process supervisor -/

/-- `SIGTERM`. -/
def SIGTERM : Int := 15

/-- `EINTR`. -/
def EINTR : Int := 4

/-- `WIFEXITED(wstatus)` of `sys/wait.h`: the low seven bits are zero. -/
def WIFEXITED (wstatus : Nat) : Bool :=
  wstatus % 128 = 0

/-- `WEXITSTATUS(wstatus)`: bits 8 to 15. -/
def WEXITSTATUS (wstatus : Nat) : Nat :=
  wstatus / 256 % 256

/-- `WTERMSIG(wstatus)`: the low seven bits. -/
def WTERMSIG (wstatus : Nat) : Nat :=
  wstatus % 128

/-- One result of the `wait(&wstatus)` call of the supervisor: the value
returned (`pid`, negative on failure), the status word stored on success,
`errno` on failure, and what `iscanceled(icd)` reports when polled at that
moment. -/
structure WaitResult where
  pid : Int
  wstatus : Nat
  errno : Int
  canceled : Bool
  deriving DecidableEq, Repr

/-- What the supervisor does to the outside world, in program order. -/
inductive Event where
  | call_mutool_spawn (filename : String) (argv : List String)
  | fork_mutool (filename : String) (argv : List String)
  | fork_logging
  | wait
  | kill (pid : Int) (sig : Int)
  deriving DecidableEq, Repr

/-- State of the supervisor when it leaves the wait loop. -/
structure SpawnRun where
  status : Outcome Int
  mutoolpid : Int
  errpid : Int
  events : List Event
  deriving DecidableEq, Repr

/-- Lines 353-375: the value assigned to `status` for a reaped child. -/
def classify (wstatus : Nat) : Int :=
  if wstatus ≠ 0 then
    if WIFEXITED wstatus then (WEXITSTATUS wstatus : Int)
    else 256 * (WTERMSIG wstatus : Int)
  else 0

/-- The wait loop (lines 339-380), run against the scripted results of
`wait`.  `has_iscanceled` says whether the `iscanceled` callback is non-NULL.
When the script ends while a child is still pending the supervisor is blocked
in `wait`. -/
def wait_loop (has_iscanceled : Bool) :
    List WaitResult → Int → Int → Int → SpawnRun
  | [], mutoolpid, errpid, status =>
    if mutoolpid > 0 ∨ errpid > 0 then
      { status := Outcome.blocked, mutoolpid := mutoolpid, errpid := errpid,
        events := [Event.wait] }
    else
      { status := Outcome.returned status, mutoolpid := mutoolpid, errpid := errpid,
        events := [] }
  | w :: script, mutoolpid, errpid, status =>
    if mutoolpid > 0 ∨ errpid > 0 then
      if w.pid < 0 then
        if w.errno = EINTR ∧ has_iscanceled = true ∧ w.canceled = true then
          { status := Outcome.returned status, mutoolpid := -1, errpid := -1,
            events := [Event.wait, Event.kill mutoolpid SIGTERM, Event.kill errpid SIGTERM] }
        else
          let r := wait_loop has_iscanceled script mutoolpid errpid status
          { r with events := Event.wait :: r.events }
      else
        let r :=
          if w.pid = mutoolpid then
            wait_loop has_iscanceled script (-1) errpid (classify w.wstatus)
          else if w.pid = errpid then
            wait_loop has_iscanceled script mutoolpid (-1) (classify w.wstatus)
          else
            wait_loop has_iscanceled script mutoolpid errpid (classify w.wstatus)
        { r with events := Event.wait :: r.events }
    else
      { status := Outcome.returned status, mutoolpid := mutoolpid, errpid := errpid,
        events := [] }

/-- What one call of `mutool_spawn` depends on besides the program name and
the argument vector, as seen by the parent process: whether a `log` callback
was supplied, whether `envp` is NULL, whether `pipe` and the two `fcntl` calls
fail, the values the two `fork` calls return in the parent (`-1` when a fork
fails), whether an `iscanceled` callback was supplied, and the results of the
successive `wait` calls. -/
structure ProcessWorld where
  has_log : Bool
  envp_null : Bool
  pipe_fails : Bool
  fcntl_read_fails : Bool
  fcntl_write_fails : Bool
  mutoolpid : Int
  errpid : Int
  has_iscanceled : Bool
  waits : List WaitResult
  deriving DecidableEq, Repr

/-- Embedding of `mutool_spawn` (lines 166-385) in the parent process.  With a
`log` callback the debug output of lines 200-216 reads `envp[0]`, which
dereferences a NULL `envp` before any pipe or fork.  `status` starts at 65536;
a failure to set up the pipe jumps to `out` with that value, before the pid
variables are assigned (reported as 0 here). -/
def mutool_spawn (filename : String) (mutool_args : List String) (w : ProcessWorld) :
    SpawnRun :=
  if w.has_log = true ∧ w.envp_null = true then
    { status := Outcome.fault, mutoolpid := 0, errpid := 0, events := [] }
  else if w.pipe_fails ∨ w.fcntl_read_fails ∨ w.fcntl_write_fails then
    { status := Outcome.returned 65536, mutoolpid := 0, errpid := 0, events := [] }
  else
    let r := wait_loop w.has_iscanceled w.waits w.mutoolpid w.errpid 65536
    { r with events := Event.fork_mutool filename mutool_args :: Event.fork_logging :: r.events }

/-! ## The driver -/

/-- Everything outside the program that one call of `mupdftoraster` depends
on: the `CUPS_MUTOOL` build constant, the results of the staging calls, the
job data (`ppd`), the header returned by the collaborator
`cupsRasterPrepareHeader`, whether `cupsArrayNew` fails, and what the
supervisor depends on (`world`, which also says whether `data->logfunc` is
set and whether `parameters`, the `envp` of the engine, is NULL).  String duplication and `cupsArrayAdd` are assumed
to succeed. -/
structure Job where
  CUPS_MUTOOL : String
  tempfd : Int
  tempname : String
  inputfd : Int
  input : List Nat
  write_fails : Bool
  lseek_fails : Bool
  fdopen_fails : Bool
  ppd : Option ppd_file
  prepared : mupdf_page_header
  array_new_fails : Bool
  world : ProcessWorld
  deriving DecidableEq, Repr

/-- Content of the buffer `infilename[1024]` filled by `cupsTempFd`. -/
def infilename (j : Job) : String :=
  snprintf_s j.tempname

/-- Result of one call of the driver: the returned status and the events. -/
structure Run where
  status : Outcome Int
  events : List Event
  deriving DecidableEq, Repr

/-- Embedding of `mupdftoraster` (lines 388-609).  `status` starts at 1; every
`goto out` before the supervisor call returns it unchanged. -/
def mupdftoraster (j : Job) : Run :=
  if j.tempfd < 0 then { status := Outcome.returned 1, events := [] }
  else if j.write_fails then { status := Outcome.returned 1, events := [] }
  else if j.inputfd = 0 ∧ j.lseek_fails then { status := Outcome.returned 1, events := [] }
  else if j.fdopen_fails then { status := Outcome.returned 1, events := [] }
  else
    let fp := j.input
    let empty := parse_doc_type fp
    if empty = -1 then { status := Outcome.returned 1, events := [] }
    else if j.array_new_fails then { status := Outcome.returned 1, events := [] }
    else
      let tmpstr := snprintf_s j.CUPS_MUTOOL
      let mupdf_args := [tmpstr, "draw", "-L", "-o-", "-smtf", "-Fpwg"]
      let h := default_resolution j.ppd j.prepared
      match parse_pdf_header_options fp h with
      | Outcome.returned h =>
        let h := { h with MirrorPrint := false, Orientation := 0 }
        let mupdf_args := add_pdf_header_options h mupdf_args
        let mupdf_args := mupdf_args ++ [snprintf_s (infilename j)]
        let tmpstr := snprintf_s j.CUPS_MUTOOL
        let r := mutool_spawn tmpstr mupdf_args j.world
        let events := Event.call_mutool_spawn tmpstr mupdf_args :: r.events
        match r.status with
        | Outcome.returned status =>
          let status := if status ≠ 0 then 1 else status
          let status := if empty ≠ 0 then 0 else status
          { status := Outcome.returned status, events := events }
        | o => { status := o, events := events }
      | Outcome.fault => { status := Outcome.fault, events := [] }
      | Outcome.blocked => { status := Outcome.blocked, events := [] }
      | Outcome.fuel => { status := Outcome.fuel, events := [] }

/-- The input is staged: the temporary file was created, the copy loop wrote
every block, and the staged file was rewound and opened (lines 441-476). -/
def Staged (j : Job) : Prop :=
  0 ≤ j.tempfd ∧ j.write_fails = false ∧ ¬ (j.inputfd = 0 ∧ j.lseek_fails = true) ∧
    j.fdopen_fails = false

instance (j : Job) : Decidable (Staged j) := by
  unfold Staged
  infer_instance

/-- The argument array at the call of the supervisor (lines 530-538, 579 and
581-582), for the header `h` handed to `add_pdf_header_options`. -/
def driver_argv (j : Job) (h : mupdf_page_header) : List String :=
  add_pdf_header_options h [snprintf_s j.CUPS_MUTOOL, "draw", "-L", "-o-", "-smtf", "-Fpwg"] ++
    [infilename j]

/-! ## Concrete inputs used below -/

/-- A prepared header left at the sentinel resolution: US Letter (612x792
points), sRGB, one copy, collation on. -/
def letter_header : mupdf_page_header :=
  { HWResolution := (100, 100), PageSize := (612, 792), cupsWidth := 850, cupsHeight := 1100,
    cupsColorSpace := CUPS_CSPACE_SRGB, NumCopies := 1, Collate := true, MirrorPrint := false,
    Orientation := 0 }

/-- A sentinel-resolution header whose page width is 14316558 points, the
smallest width for which `300 * PageSize[0]` exceeds 32 bits. -/
def wide_header : mupdf_page_header :=
  { letter_header with PageSize := (14316558, 792) }

/-- A log callback and an environment are supplied, the pipe is set up, and
both children start (engine pid 1001, relay pid 1002); the engine exits
with code 2 (status word 512) and is reaped first, then the relay exits 0. -/
def engine_fails_first : ProcessWorld :=
  { has_log := true, envp_null := false, pipe_fails := false, fcntl_read_fails := false,
    fcntl_write_fails := false, mutoolpid := 1001, errpid := 1002, has_iscanceled := true,
    waits := [⟨1001, 512, 0, false⟩, ⟨1002, 0, 0, false⟩] }

/-- The same two terminations reaped in the other order: relay first, engine
(exit code 2) last. -/
def engine_fails_last : ProcessWorld :=
  { engine_fails_first with waits := [⟨1002, 0, 0, false⟩, ⟨1001, 512, 0, false⟩] }

/-- The engine exits cleanly (status word 0) and is reaped first; the relay is
then killed by signal 9 (status word 9). -/
def relay_killed_last : ProcessWorld :=
  { engine_fails_first with waits := [⟨1001, 0, 0, false⟩, ⟨1002, 9, 0, false⟩] }

/-- The engine exits cleanly and is reaped; the next `wait` is interrupted
(`EINTR`) while the job is reported canceled and the relay is still running. -/
def cancel_after_engine_reaped : ProcessWorld :=
  { engine_fails_first with waits := [⟨1001, 0, 0, false⟩, ⟨-1, 0, 4, true⟩] }

/-- A job on standard input with an empty input stream, no PPD, a Letter
header, and two children that both exit cleanly. -/
def empty_job : Job :=
  { CUPS_MUTOOL := "mutool", tempfd := 5, tempname := "/tmp/ip-abc", inputfd := 0, input := [],
    write_fails := false, lseek_fails := false, fdopen_fails := false, ppd := none,
    prepared := letter_header, array_new_fails := false,
    world := { engine_fails_first with waits := [⟨1001, 0, 0, false⟩, ⟨1002, 0, 0, false⟩] } }

/-- A job whose document is a bare PDF marker line and whose engine exits with
code 2 and is reaped last. -/
def failing_engine_job : Job :=
  { empty_job with input := bytes "%PDF-1.4\n", world := engine_fails_last }

/-- A document with the copy-count and collation directives right after the
marker line, as the upstream stage writes them. -/
def directives_document : List Nat :=
  bytes "%PDF-1.4\n%%PDFTOPDFNumCopies : 3\n%%PDFTOPDFCollate : true\n"

/-- A document whose copy-count directive carries a value that is not a
number. -/
def bad_copies_document : List Nat :=
  bytes "%PDF-1.4\n%%PDFTOPDFNumCopies: abc\n"

/-- A document whose copy-count directive has no ':' separator. -/
def no_separator_document : List Nat :=
  bytes "%PDF-1.4\n%%PDFTOPDFNumCopies 3\n"

/-- A job whose staged document is recognized and carries a copy-count
directive without ':' separator; everything else as in `empty_job`. -/
def missing_separator_job : Job :=
  { empty_job with input := no_separator_document }

/-! ## Facts about the C primitives -/

theorem bytes_pdf : bytes "%PDF" = [37, 80, 68, 70] := by decide

/-- Comparing four bytes with the marker succeeds exactly when the buffer
starts with the four marker bytes. -/
theorem strncmp_pdf_eq_zero (buf : List Nat) :
    strncmp buf (bytes "%PDF") 4 = 0 ↔ buf.take 4 = [37, 80, 68, 70] := by
  rw [bytes_pdf]
  rcases buf with _ | ⟨a, _ | ⟨b, _ | ⟨c, _ | ⟨d, r⟩⟩⟩⟩ <;>
    simp [strncmp] <;> (repeat (split_ifs <;> simp_all)) <;> omega

/-- The four bytes `fgets` stores start with the marker exactly when the
stream does: a newline among them stops the read early and spoils the match
in both. -/
theorem readChunk_four_marker (s : List Nat) :
    (readChunk 4 s).1.take 4 = [37, 80, 68, 70] ↔ s.take 4 = [37, 80, 68, 70] := by
  rcases s with _ | ⟨a, _ | ⟨b, _ | ⟨c, _ | ⟨d, r⟩⟩⟩⟩ <;>
    simp [readChunk] <;> (repeat (split_ifs <;> simp_all))

/-- Reading a chunk splits the stream: nothing is lost or reordered. -/
theorem readChunk_append (n : Nat) (s : List Nat) :
    (readChunk n s).1 ++ (readChunk n s).2 = s := by
  induction n generalizing s with
  | zero => simp [readChunk]
  | succ n ih =>
    cases s with
    | nil => simp [readChunk]
    | cons c t =>
      by_cases hc : c = 10
      · simp [readChunk, hc]
      · simp [readChunk, hc, ih t]

/-- Reading a line that fits the buffer returns the whole line and leaves what
follows it, whatever that is. -/
theorem readChunk_line_short (n : Nat) (body X : List Nat) (hb : 10 ∉ body)
    (hn : body.length < n) : readChunk n (body ++ 10 :: X) = (body ++ [10], X) := by
  induction body generalizing n with
  | nil =>
    cases n with
    | zero => simp at hn
    | succ n => simp [readChunk]
  | cons c t ih =>
    cases n with
    | zero => simp at hn
    | succ n =>
      have hc : c ≠ 10 := fun h => hb (by simp [h])
      have ht : 10 ∉ t := fun h => hb (List.mem_cons_of_mem _ h)
      have hl : t.length < n := by
        simp only [List.length_cons] at hn
        omega
      simp [readChunk, hc, ih n ht hl]

/-- Reading a line longer than the buffer returns its first `n` bytes and
leaves the rest of the line. -/
theorem readChunk_line_long (n : Nat) (body X : List Nat) (hb : 10 ∉ body)
    (hn : n ≤ body.length) :
    readChunk n (body ++ 10 :: X) = (body.take n, body.drop n ++ 10 :: X) := by
  induction n generalizing body with
  | zero => simp [readChunk]
  | succ n ih =>
    cases body with
    | nil => simp at hn
    | cons c t =>
      have hc : c ≠ 10 := fun h => hb (by simp [h])
      have ht : 10 ∉ t := fun h => hb (List.mem_cons_of_mem _ h)
      have hl : n ≤ t.length := by
        simp only [List.length_cons] at hn
        omega
      simp [readChunk, hc, ih t ht hl]

theorem fgets_line (body X : List Nat) :
    fgets 4096 (body ++ 10 :: X) = some (readChunk 4095 (body ++ 10 :: X)) := by
  cases body with
  | nil => rfl
  | cons c t => rfl

/-- A successful `fgets` with room for at least one byte consumes at least one
byte. -/
theorem fgets_shorter (s buf rest : List Nat) (h : fgets 4096 s = some (buf, rest)) :
    rest.length < s.length := by
  cases s with
  | nil => simp [fgets] at h
  | cons c t =>
    simp only [fgets, Option.some.injEq] at h
    have ha := readChunk_append 4094 t
    by_cases hc : c = 10
    · simp [readChunk, hc] at h
      rw [← h.2]
      simp
    · simp [readChunk, hc] at h
      rw [← h.2]
      have hl := congrArg List.length ha
      simp only [List.length_append] at hl
      simp only [List.length_cons]
      omega

/-- A successful `strchr` for a non-NUL byte points at that byte. -/
theorem strchr_head (s p : List Nat) (c : Nat) (hc : c ≠ 0) (h : strchr s c = some p) :
    ∃ t, p = c :: t := by
  induction s with
  | nil => simp [strchr, hc] at h
  | cons x xs ih =>
    unfold strchr at h
    by_cases hx : x = c
    · simp only [hx, if_true, Option.some.injEq] at h
      exact ⟨xs, h.symm⟩
    · simp only [hx, if_false] at h
      by_cases h0 : x = 0
      · simp [h0] at h
      · simp only [h0, if_false] at h
        exact ih h

/-- `atoi` of a string without any decimal digit is 0. -/
theorem atoiDigits_no_digit (s : List Nat) (hs : ∀ c ∈ s, ¬ (48 ≤ c ∧ c ≤ 57)) :
    atoiDigits s 0 = 0 := by
  cases s with
  | nil => rfl
  | cons c t =>
    have := hs c (List.mem_cons_self _ _)
    simp [atoiDigits, this]

theorem atoiValue_no_digit (s : List Nat) (hs : ∀ c ∈ s, ¬ (48 ≤ c ∧ c ≤ 57)) :
    atoiValue s = 0 := by
  induction s with
  | nil => rfl
  | cons c t ih =>
    have ht : ∀ x ∈ t, ¬ (48 ≤ x ∧ x ≤ 57) := fun x hx => hs x (List.mem_cons_of_mem _ hx)
    unfold atoiValue
    by_cases hsp : isspace c = true
    · simp [hsp, ih ht]
    · simp only [hsp, if_false]
      unfold atoiSigned
      by_cases h1 : c = 45
      · simp [h1, atoiDigits_no_digit t ht]
      · by_cases h2 : c = 43
        · simp [h2, atoiDigits_no_digit t ht]
        · simp [h1, h2, atoiDigits_no_digit (c :: t) hs]

/-- When no number is read, `atoi` returns 0. -/
theorem atoi_of_value_zero (s : List Nat) (h : atoiValue s = 0) : atoi s = 0 := by
  unfold atoi strtol
  rw [h]
  decide

theorem atoi_no_digit (s : List Nat) (hs : ∀ c ∈ s, ¬ (48 ≤ c ∧ c ≤ 57)) : atoi s = 0 :=
  atoi_of_value_zero s (atoiValue_no_digit s hs)

/-- For a field below `2 ^ 31` the `%d` conversion prints its decimal value. -/
theorem fmt_d_of_lt (x : Nat) (hx : x < 2147483648) : fmt_d x = toString x := by
  have h1 : x % 4294967296 = x := Nat.mod_eq_of_lt (by omega)
  unfold fmt_d toSigned
  rw [h1, if_pos hx]
  rfl

theorem snprintf_s_idem (s : String) : snprintf_s (snprintf_s s) = snprintf_s s := by
  simp [snprintf_s, List.take_take]

/-! ## Facts about the directive scan -/

/-- The first loop always ends: every iteration consumes a byte, so the bound
`s.length + 1` is never used up. -/
theorem skip_until_marker_total (k : Nat) (s : List Nat) (hk : s.length < k) :
    ∃ r, skip_until_marker k s = Outcome.returned r := by
  induction k generalizing s with
  | zero => omega
  | succ k ih =>
    unfold skip_until_marker
    cases hf : fgets 4096 s with
    | none => exact ⟨s, rfl⟩
    | some br =>
      obtain ⟨buf, rest⟩ := br
      have hlt := fgets_shorter s buf rest hf
      by_cases hm : strncmp buf (bytes "%PDF") 4 = 0
      · exact ⟨rest, by simp [hm]⟩
      · simp only [hm, if_false]
        exact ih rest (by omega)

/-- The first loop stops right after a leading marker line, whatever follows
it. -/
theorem marker_line_skipped (X : List Nat) :
    skip_until_marker ((bytes "%PDF-1.4\n" ++ X).length + 1) (bytes "%PDF-1.4\n" ++ X) =
      Outcome.returned X := by
  have hb : bytes "%PDF-1.4\n" = [37, 80, 68, 70, 45, 49, 46, 52, 10] := by decide
  rw [hb]
  simp [skip_until_marker, fgets, readChunk, bytes_pdf, strncmp]

/-- A line either faults (keyword without separator) or returns a header that
differs from the given one at most in `NumCopies` and `Collate`. -/
theorem directive_line_cases (buf : List Nat) (h : mupdf_page_header) :
    (missing_separator buf = true ∧ directive_line buf h = Outcome.fault) ∨
    (missing_separator buf = false ∧ ∃ h1, directive_line buf h = Outcome.returned h1 ∧
      h1 = { h with NumCopies := h1.NumCopies, Collate := h1.Collate }) := by
  unfold missing_separator directive_line
  by_cases hn : strncmp buf (bytes "%%PDFTOPDFNumCopies") 19 = 0
  · simp only [hn, if_true]
    cases strchr (List.drop 19 buf) 58 with
    | none => exact Or.inl ⟨rfl, rfl⟩
    | some p => exact Or.inr ⟨rfl, _, rfl, rfl⟩
  · simp only [hn, if_false]
    by_cases hc : strncmp buf (bytes "%%PDFTOPDFCollate") 17 = 0
    · simp only [hc, if_true]
      cases strchr (List.drop 17 buf) 58 with
      | none => exact Or.inl ⟨rfl, rfl⟩
      | some p =>
        refine Or.inr ⟨rfl, ?_⟩
        by_cases ht : strncasecmp (skip_blanks p) (bytes "true") 4 = 0
        · exact ⟨{ h with Collate := true }, by simp only [ht, if_true], rfl⟩
        · exact ⟨{ h with Collate := false }, by simp only [ht, if_false], rfl⟩
    · simp only [hc, if_false]
      exact Or.inr ⟨by simp, h, rfl, rfl⟩

/-- No line ever switches collation on: the comparison with "true" starts at
the ':' the pointer still rests on, so it always fails. -/
theorem directive_line_never_sets_collate (buf : List Nat) (h h1 : mupdf_page_header)
    (hr : directive_line buf h = Outcome.returned h1) (hc : h1.Collate = true) :
    h.Collate = true := by
  unfold directive_line at hr
  by_cases hn : strncmp buf (bytes "%%PDFTOPDFNumCopies") 19 = 0
  · simp only [hn, if_true] at hr
    cases hs : strchr (List.drop 19 buf) 58 with
    | none => simp [hs] at hr
    | some p =>
      simp only [hs, Outcome.returned.injEq] at hr
      rw [← hr] at hc
      exact hc
  · simp only [hn, if_false] at hr
    by_cases hk : strncmp buf (bytes "%%PDFTOPDFCollate") 17 = 0
    · simp only [hk, if_true] at hr
      cases hs : strchr (List.drop 17 buf) 58 with
      | none => simp [hs] at hr
      | some p =>
        obtain ⟨t, ht⟩ := strchr_head _ p 58 (by decide) hs
        have htrue : bytes "true" = [116, 114, 117, 101] := by decide
        have hne : strncasecmp (skip_blanks p) (bytes "true") 4 ≠ 0 := by
          rw [ht, htrue]
          simp [skip_blanks, strncasecmp, tolower]
        simp only [hs, hne, if_false, Outcome.returned.injEq] at hr
        rw [← hr] at hc
        simp at hc
    · simp only [hk, if_false, Outcome.returned.injEq] at hr
      rw [← hr] at hc
      exact hc

/-- The scanning loop returns when no line it reads lacks its separator, and
then changes at most `NumCopies` and `Collate`. -/
theorem scan_directives_returns (n : Nat) (s : List Nat) (h : mupdf_page_header)
    (hsep : ∀ buf ∈ read_lines n s, missing_separator buf = false) :
    ∃ h1, scan_directives n s h = Outcome.returned h1 ∧
      h1 = { h with NumCopies := h1.NumCopies, Collate := h1.Collate } := by
  induction n generalizing s h with
  | zero => exact ⟨h, rfl, rfl⟩
  | succ n ih =>
    unfold scan_directives
    unfold read_lines at hsep
    cases hf : fgets 4096 s with
    | none => exact ⟨h, rfl, rfl⟩
    | some br =>
      obtain ⟨buf, rest⟩ := br
      simp only [hf] at hsep
      rcases directive_line_cases buf h with ⟨hm, _⟩ | ⟨_, h1, hd, he⟩
      · have := hsep buf (List.mem_cons_self _ _)
        rw [hm] at this
        exact absurd this (by decide)
      · simp only [hd]
        obtain ⟨h2, hs2, he2⟩ := ih rest h1 (fun b hb => hsep b (List.mem_cons_of_mem _ hb))
        refine ⟨h2, hs2, ?_⟩
        rw [he2, he]

/-- Whenever the scanning loop returns, the header differs from the initial
one at most in `NumCopies` and `Collate`. -/
theorem scan_directives_preserves (n : Nat) (s : List Nat) (h h1 : mupdf_page_header)
    (hr : scan_directives n s h = Outcome.returned h1) :
    h1 = { h with NumCopies := h1.NumCopies, Collate := h1.Collate } := by
  induction n generalizing s h with
  | zero =>
    simp only [scan_directives, Outcome.returned.injEq] at hr
    rw [← hr]
  | succ n ih =>
    unfold scan_directives at hr
    cases hf : fgets 4096 s with
    | none =>
      simp only [hf, Outcome.returned.injEq] at hr
      rw [← hr]
    | some br =>
      obtain ⟨buf, rest⟩ := br
      simp only [hf] at hr
      rcases directive_line_cases buf h with ⟨_, hd⟩ | ⟨_, h2, hd, he⟩
      · simp [hd] at hr
      · simp only [hd] at hr
        have := ih rest h2 hr
        rw [this, he]

/-- The scanning loop either returns or faults; it never blocks and never runs
out of iterations. -/
theorem scan_directives_returns_or_faults (n : Nat) (s : List Nat) (h : mupdf_page_header) :
    (∃ h1, scan_directives n s h = Outcome.returned h1) ∨
      scan_directives n s h = Outcome.fault := by
  induction n generalizing s h with
  | zero => exact Or.inl ⟨h, rfl⟩
  | succ n ih =>
    unfold scan_directives
    cases hf : fgets 4096 s with
    | none => exact Or.inl ⟨h, rfl⟩
    | some br =>
      obtain ⟨buf, rest⟩ := br
      rcases directive_line_cases buf h with ⟨_, hd⟩ | ⟨_, h1, hd, _⟩
      · simp only [hd]
        exact Or.inr trivial
      · simp only [hd]
        exact ih rest h1

/-- What follows the `n`-th line after the position of the scanning loop never
reaches the loop: its result is the same for every continuation. -/
theorem scan_directives_local (n : Nat) (bodies : List (List Nat)) (rest rest1 : List Nat)
    (h : mupdf_page_header) (hb : ∀ b ∈ bodies, 10 ∉ b) (hn : n ≤ bodies.length) :
    scan_directives n (unlines bodies ++ rest) h =
      scan_directives n (unlines bodies ++ rest1) h := by
  induction n generalizing bodies h with
  | zero => rfl
  | succ n ih =>
    cases bodies with
    | nil => simp at hn
    | cons b bs =>
      have hb0 : 10 ∉ b := hb b (List.mem_cons_self _ _)
      have hbs : ∀ x ∈ bs, 10 ∉ x := fun x hx => hb x (List.mem_cons_of_mem _ hx)
      have hlen : n ≤ bs.length := by
        simp only [List.length_cons] at hn
        omega
      have e1 : ∀ r : List Nat, unlines (b :: bs) ++ r = b ++ 10 :: (unlines bs ++ r) := by
        intro r
        simp [unlines]
      rw [e1, e1]
      unfold scan_directives
      rw [fgets_line, fgets_line]
      by_cases hs : b.length < 4095
      · rw [readChunk_line_short 4095 b _ hb0 hs, readChunk_line_short 4095 b _ hb0 hs]
        simp only
        cases directive_line (b ++ [10]) h with
        | returned h1 => exact ih bs h1 hbs hlen
        | fault => rfl
        | blocked => rfl
        | fuel => rfl
      · have hl : 4095 ≤ b.length := by omega
        rw [readChunk_line_long 4095 b _ hb0 hl, readChunk_line_long 4095 b _ hb0 hl]
        simp only
        have e2 : ∀ r : List Nat, List.drop 4095 b ++ 10 :: (unlines bs ++ r) =
            unlines (List.drop 4095 b :: bs) ++ r := by
          intro r
          simp [unlines]
        rw [e2, e2]
        have hd : ∀ x ∈ List.drop 4095 b :: bs, 10 ∉ x := by
          intro x hx
          rcases List.mem_cons.mp hx with hx | hx
          · rw [hx]
            exact fun hin => hb0 (List.mem_of_mem_drop hin)
          · exact hbs x hx
        have hlen2 : n ≤ (List.drop 4095 b :: bs).length := by
          simp only [List.length_cons]
          omega
        cases directive_line (List.take 4095 b) h with
        | returned h1 => exact ih (List.drop 4095 b :: bs) h1 hd hlen2
        | fault => rfl
        | blocked => rfl
        | fuel => rfl

/-- On the empty staged file both loops of the directive scan stop at once. -/
theorem parse_pdf_header_options_nil (h : mupdf_page_header) :
    parse_pdf_header_options [] h = Outcome.returned h := rfl

/-- Whenever `parse_pdf_header_options` returns, the header differs from the
initial one at most in `NumCopies` and `Collate`. -/
theorem parse_pdf_header_options_preserves (fp : List Nat) (h h1 : mupdf_page_header)
    (hr : parse_pdf_header_options fp h = Outcome.returned h1) :
    h1 = { h with NumCopies := h1.NumCopies, Collate := h1.Collate } := by
  unfold parse_pdf_header_options at hr
  split at hr
  · exact scan_directives_preserves _ _ h h1 hr
  all_goals simp at hr

/-- The embedding of `parse_pdf_header_options` is total: on every document it
returns a header or reports the NULL dereference. -/
theorem parse_pdf_header_options_returns_or_faults (fp : List Nat) (h : mupdf_page_header) :
    (∃ h1, parse_pdf_header_options fp h = Outcome.returned h1) ∨
      parse_pdf_header_options fp h = Outcome.fault := by
  obtain ⟨r, hr⟩ := skip_until_marker_total (fp.length + 1) fp (Nat.lt_succ_self _)
  unfold parse_pdf_header_options
  rw [hr]
  exact scan_directives_returns_or_faults _ r h

/-- A copy-count directive without separator makes the scan dereference the
NULL result of `strchr`. -/
theorem no_separator_faults :
    parse_pdf_header_options no_separator_document letter_header = Outcome.fault := by
  decide

/-! ## Facts about the argument builder, the supervisor and the driver -/

/-- The flags appended by `add_pdf_header_options`, in closed form. -/
theorem add_pdf_header_options_eq (h : mupdf_page_header) (args : List String) :
    add_pdf_header_options h args =
      args ++ ["-r" ++ fmt_d h.HWResolution.1 ++ "x" ++ fmt_d h.HWResolution.2,
        "-w" ++ fmt_d h.cupsWidth, "-h" ++ fmt_d h.cupsHeight,
        if h.cupsColorSpace = CUPS_CSPACE_RGB ∨ h.cupsColorSpace = CUPS_CSPACE_CMY ∨
            h.cupsColorSpace = CUPS_CSPACE_SRGB ∨ h.cupsColorSpace = CUPS_CSPACE_ADOBERGB then
          "-crgb"
        else if h.cupsColorSpace = CUPS_CSPACE_CMYK then "-ccmyk"
        else if h.cupsColorSpace = CUPS_CSPACE_SW then "-cgray"
        else "-cmono"] := by
  unfold add_pdf_header_options
  by_cases hr : h.HWResolution.1 ≠ 100 ∨ h.HWResolution.2 ≠ 100
  · simp [hr]
  · have h1 : h.HWResolution.1 = 100 := by
      by_contra hc
      exact hr (Or.inl hc)
    have h2 : h.HWResolution.2 = 100 := by
      by_contra hc
      exact hr (Or.inr hc)
    have hlit : "-r" ++ fmt_d 100 ++ "x" ++ fmt_d 100 = "-r100x100" := by decide
    simp [h1, h2, hlit]

/-- The two fields the driver forces after the scan play no part in the
argument vector. -/
theorem driver_argv_forced (j : Job) (h : mupdf_page_header) :
    driver_argv j { h with MirrorPrint := false, Orientation := 0 } = driver_argv j h := by
  unfold driver_argv
  rw [add_pdf_header_options_eq, add_pdf_header_options_eq]

/-- The vector of the witness job, spelled out. -/
theorem argument_vector_example :
    add_pdf_header_options (default_resolution none letter_header)
        [snprintf_s "mutool", "draw", "-L", "-o-", "-smtf", "-Fpwg"] ++
        [infilename failing_engine_job] =
      ["mutool", "draw", "-L", "-o-", "-smtf", "-Fpwg", "-r300x300", "-w2550", "-h3300",
        "-crgb", "/tmp/ip-abc"] := by
  decide

/-- Whatever follows the 'x' of a `DefaultResolution` value, the second axis
ends up equal to the first: `atoi` is applied to the 'x' itself. -/
theorem second_axis_mirrors_first (value p : List Nat) (h : mupdf_page_header)
    (hs : h.HWResolution = (100, 100)) (hp : strchr value 120 = some p) :
    (default_resolution (some ⟨some value⟩) h).HWResolution.2 =
      (default_resolution (some ⟨some value⟩) h).HWResolution.1 := by
  obtain ⟨t, ht⟩ := strchr_head _ p 120 (by decide) hp
  have h1 : h.HWResolution.1 = 100 := by rw [hs]
  have h2 : h.HWResolution.2 = 100 := by rw [hs]
  have ha : atoi (120 :: t) = 0 :=
    atoi_of_value_zero _ (by simp [atoiValue, isspace, atoiSigned, atoiDigits])
  have h0 : toUnsigned 0 = 0 := by decide
  simp [default_resolution, h1, h2, hp, ht, ha, h0]

/-- A negative first axis is stored in the unsigned field as a large value,
which the test `<= 0` does not catch: "-5" gives 4294967291 on both axes. -/
theorem negative_first_axis_kept :
    (default_resolution (some ⟨some (bytes "-5")⟩) letter_header).HWResolution =
      (4294967291, 4294967291) := by
  decide

/-- The status the supervisor returns does not depend on the program name or
the argument vector: they only reach the `exec` of the engine child. -/
theorem mutool_spawn_status_indep (f g : String) (a b : List String) (w : ProcessWorld) :
    (mutool_spawn f a w).status = (mutool_spawn g b w).status := by
  unfold mutool_spawn
  split_ifs <;> rfl

/-- When both children are reaped without cancellation, the status returned is
the classification of whichever child is reaped last. -/
theorem last_reaped_child_decides (ic : Bool) (m e : Int) (we wr : Nat) (st : Int)
    (hm : 0 < m) (he : 0 < e) (hne : m ≠ e) :
    (wait_loop ic [⟨m, we, 0, false⟩, ⟨e, wr, 0, false⟩] m e st).status =
        Outcome.returned (classify wr) ∧
      (wait_loop ic [⟨e, wr, 0, false⟩, ⟨m, we, 0, false⟩] m e st).status =
        Outcome.returned (classify we) := by
  have hm0 : ¬ m < 0 := by omega
  have he0 : ¬ e < 0 := by omega
  have hem : e ≠ m := fun h => hne h.symm
  have hm1 : m ≠ -1 := by omega
  have he1 : e ≠ -1 := by omega
  constructor <;> simp [wait_loop, hm, he, hm0, he0, hne, hem, hm1, he1]

/-- Cancellation detected after the engine was reaped sends `SIGTERM` to pid
-1 and to the relay, whatever the pids of the two children. -/
theorem cancel_after_reap_signals_minus_one (m e : Int) (we : Nat) (st : Int)
    (hm : 0 < m) (he : 0 < e) :
    (wait_loop true [⟨m, we, 0, false⟩, ⟨-1, 0, EINTR, true⟩] m e st).events =
      [Event.wait, Event.wait, Event.kill (-1) SIGTERM, Event.kill e SIGTERM] := by
  have hm0 : ¬ m < 0 := by omega
  simp [wait_loop, hm, he, hm0]

/-- The sniffer reports empty only for the zero-length input. -/
theorem parse_doc_type_eq_one (fp : List Nat) (h : parse_doc_type fp = 1) : fp = [] := by
  cases fp with
  | nil => rfl
  | cons c t =>
    simp only [parse_doc_type, fgets] at h
    split_ifs at h
    all_goals omega

/-- What the driver does once the input is staged, recognized or empty, the
array is allocated and the directive scan has returned `h`: it calls the
supervisor and normalizes its status. -/
theorem mupdftoraster_reaches_supervisor (j : Job) (h : mupdf_page_header)
    (hstaged : Staged j) (halloc : j.array_new_fails = false)
    (hdoc : parse_doc_type j.input ≠ -1)
    (hscan : parse_pdf_header_options j.input (default_resolution j.ppd j.prepared) =
      Outcome.returned h) :
    (mupdftoraster j).events =
        Event.call_mutool_spawn (snprintf_s j.CUPS_MUTOOL) (driver_argv j h) ::
          (mutool_spawn (snprintf_s j.CUPS_MUTOOL) (driver_argv j h) j.world).events ∧
      (mupdftoraster j).status =
        match (mutool_spawn (snprintf_s j.CUPS_MUTOOL) (driver_argv j h) j.world).status with
        | Outcome.returned status =>
          Outcome.returned
            (if parse_doc_type j.input ≠ 0 then 0 else if status ≠ 0 then 1 else status)
        | o => o := by
  obtain ⟨h1, h2, h3, h4⟩ := hstaged
  have h1n : ¬ j.tempfd < 0 := not_lt.mpr h1
  have hu : mupdftoraster j =
      match (mutool_spawn (snprintf_s j.CUPS_MUTOOL) (driver_argv j h) j.world).status with
      | Outcome.returned status =>
        { status := Outcome.returned
            (if parse_doc_type j.input ≠ 0 then 0 else if status ≠ 0 then 1 else status),
          events := Event.call_mutool_spawn (snprintf_s j.CUPS_MUTOOL) (driver_argv j h) ::
            (mutool_spawn (snprintf_s j.CUPS_MUTOOL) (driver_argv j h) j.world).events }
      | o =>
        { status := o,
          events := Event.call_mutool_spawn (snprintf_s j.CUPS_MUTOOL) (driver_argv j h) ::
            (mutool_spawn (snprintf_s j.CUPS_MUTOOL) (driver_argv j h) j.world).events } := by
    rw [← driver_argv_forced j h]
    unfold mupdftoraster driver_argv
    simp only [h1n, h2, h3, h4, halloc, hdoc, hscan, if_false, infilename, snprintf_s_idem]
    simp only [Bool.false_eq_true, if_false]
  rw [hu]
  cases (mutool_spawn (snprintf_s j.CUPS_MUTOOL) (driver_argv j h) j.world).status <;>
    exact ⟨rfl, rfl⟩

/-- The driver only ever returns 0 or 1. -/
theorem mupdftoraster_zero_or_one (j : Job) (st : Int)
    (h : (mupdftoraster j).status = Outcome.returned st) : st = 0 ∨ st = 1 := by
  unfold mupdftoraster at h
  dsimp only at h
  split_ifs at h <;> try (simp at h; omega)
  all_goals
    split at h
    · split at h
      · simp only [Outcome.returned.injEq] at h
        omega
      · rename_i o hne
        cases o <;> simp_all
    all_goals simp at h

/-- How the driver normalizes the status when it returns: with the input
staged and the argument array allocated it returns 1 when the sniffer reports
unrecognized; 0 when the sniffer reports empty, whatever the supervisor
returned; and, for a recognized document whose directive scan returns, 0 when
the supervisor returned 0 and 1 when it returned anything else.  A status it
returns is always 0 or 1. -/
theorem mupdftoraster_status_when_returning (j : Job) (hstaged : Staged j)
    (halloc : j.array_new_fails = false) :
    (parse_doc_type j.input = -1 → (mupdftoraster j).status = Outcome.returned 1) ∧
    (parse_doc_type j.input = 1 → ∀ (argv : List String) (s : Int),
      (mutool_spawn (snprintf_s j.CUPS_MUTOOL) argv j.world).status = Outcome.returned s →
      (mupdftoraster j).status = Outcome.returned 0) ∧
    (parse_doc_type j.input = 0 → ∀ (h : mupdf_page_header) (argv : List String) (s : Int),
      parse_pdf_header_options j.input (default_resolution j.ppd j.prepared) =
        Outcome.returned h →
      (mutool_spawn (snprintf_s j.CUPS_MUTOOL) argv j.world).status = Outcome.returned s →
      (mupdftoraster j).status = Outcome.returned (if s = 0 then 0 else 1)) ∧
    (∀ st : Int, (mupdftoraster j).status = Outcome.returned st → st = 0 ∨ st = 1) := by
  refine ⟨?_, ?_, ?_, mupdftoraster_zero_or_one j⟩
  · intro hd
    obtain ⟨h1, h2, h3, h4⟩ := hstaged
    have h1n : ¬ j.tempfd < 0 := not_lt.mpr h1
    unfold mupdftoraster
    simp [h1n, h2, h3, h4, hd]
  · intro hd argv s hsp
    have hnil := parse_doc_type_eq_one j.input hd
    have hscan : parse_pdf_header_options j.input (default_resolution j.ppd j.prepared) =
        Outcome.returned (default_resolution j.ppd j.prepared) := by
      rw [hnil]
      rfl
    rw [(mupdftoraster_reaches_supervisor j _ hstaged halloc (by rw [hd]; decide) hscan).2,
      mutool_spawn_status_indep _ (snprintf_s j.CUPS_MUTOOL) _ argv, hsp]
    simp [hd]
  · intro hd h argv s hscan hsp
    rw [(mupdftoraster_reaches_supervisor j h hstaged halloc (by rw [hd]; decide) hscan).2,
      mutool_spawn_status_indep _ (snprintf_s j.CUPS_MUTOOL) _ argv, hsp]
    simp only [hd]
    by_cases hs : s = 0 <;> simp [hs]

/-! ## C1: the status returned by the driver -/

/-- C1 fails on the code: `missing_separator_job` has its input staged, its
argument array allocated and a recognized document, yet the driver returns no
status at all: the directive scan it runs before the supervisor dereferences
the NULL result of `strchr` on the copy-count line without ':'. -/
theorem driver_faults_on_missing_separator :
    Staged missing_separator_job ∧
    missing_separator_job.array_new_fails = false ∧
    parse_doc_type missing_separator_job.input = 0 ∧
    mupdftoraster missing_separator_job =
      { status := Outcome.fault, events := [] } := by
  decide

/-! ## C2: the status returned by the supervisor -/

/-- C2 fails on the code: when the engine exits with code 2 and is reaped
before the relay, the relay's clean exit overwrites `status` and the
supervisor returns 0; reaped in the other order the same two terminations
give 2, the classification of the engine's status word.  Likewise a relay
killed by signal 9 after a clean engine exit makes the supervisor return
`256 * 9`. -/
theorem relay_overwrites_engine_status :
    classify 512 = 2 ∧
    (mutool_spawn "mutool" ["mutool"] engine_fails_first).status = Outcome.returned 0 ∧
    (mutool_spawn "mutool" ["mutool"] engine_fails_last).status = Outcome.returned 2 ∧
    (mutool_spawn "mutool" ["mutool"] relay_killed_last).status = Outcome.returned 2304 := by
  decide

/-! ## C3: the sniffer -/

/-- C3: `parse_doc_type` returns empty (1) for the zero-length input,
recognized (0) when the first four bytes are "%PDF", and unrecognized (-1)
for every other non-empty input. -/
theorem parse_doc_type_classifies (fp : List Nat) :
    parse_doc_type fp =
      if fp = [] then 1 else if fp.take 4 = bytes "%PDF" then 0 else -1 := by
  cases fp with
  | nil => simp [parse_doc_type, fgets]
  | cons a t =>
    have h := readChunk_four_marker (a :: t)
    have hs := strncmp_pdf_eq_zero (readChunk 4 (a :: t)).1
    simp only [parse_doc_type, fgets, Nat.add_one_sub_one, reduceCtorEq, if_false, bytes_pdf]
    rw [bytes_pdf] at hs
    by_cases hm : (a :: t).take 4 = [37, 80, 68, 70]
    · rw [if_pos hm, if_pos (hs.mpr (h.mpr hm))]
    · rw [if_neg hm, if_neg (fun hc => hm (h.mp (hs.mp hc)))]

/-! ## C4: the empty input -/

/-- C6, as stated, fails on the 32-bit arithmetic of the header fields: for a
page 14316558 points wide the product `300 * PageSize[0]` wraps and the width
becomes 1, not `300 * 14316558 / 72 = 59652325`. -/
theorem wide_page_width_wraps :
    wide_header.HWResolution = (100, 100) ∧
    (default_resolution none wide_header).cupsWidth = 1 ∧
    300 * wide_header.PageSize.1 / 72 = 59652325 := by
  decide

/-- C6, as amended: a prepared header at the sentinel 100x100 with no
`DefaultResolution` attribute available (no PPD, or the attribute absent) gets
the resolution 300x300 and the resolution flag "-r300x300"; its width and
height become `300 * PageSize / 72` on each axis (truncating division) as long
as the product `300 * PageSize` fits the 32-bit unsigned arithmetic of the
header fields.  A header prepared with any other resolution is returned
unchanged.  The directive scan that follows keeps resolution, width and
height, so these are the values the argument builder sees. -/
theorem default_resolution_fallback (ppd : Option ppd_file) (h : mupdf_page_header) :
    (h.HWResolution = (100, 100) → (ppd = none ∨ ppd = some ⟨none⟩) →
      (default_resolution ppd h).HWResolution = (300, 300) ∧
      (add_pdf_header_options (default_resolution ppd h) []).head? = some "-r300x300" ∧
      (300 * h.PageSize.1 < 4294967296 →
        (default_resolution ppd h).cupsWidth = 300 * h.PageSize.1 / 72) ∧
      (300 * h.PageSize.2 < 4294967296 →
        (default_resolution ppd h).cupsHeight = 300 * h.PageSize.2 / 72)) ∧
    (h.HWResolution ≠ (100, 100) → default_resolution ppd h = h) ∧
    (∀ (fp : List Nat) (h1 : mupdf_page_header),
      parse_pdf_header_options fp (default_resolution ppd h) = Outcome.returned h1 →
      h1.HWResolution = (default_resolution ppd h).HWResolution ∧
      h1.cupsWidth = (default_resolution ppd h).cupsWidth ∧
      h1.cupsHeight = (default_resolution ppd h).cupsHeight) := by
  refine ⟨?_, ?_, ?_⟩
  · intro hres hppd
    have h1 : h.HWResolution.1 = 100 := by rw [hres]
    have h2 : h.HWResolution.2 = 100 := by rw [hres]
    have hlit : "-r" ++ fmt_d 300 ++ "x" ++ fmt_d 300 = "-r300x300" := by decide
    rcases hppd with hp | hp <;> subst hp <;>
      simp [default_resolution, h1, h2, add_pdf_header_options_eq, hlit] <;>
      exact ⟨fun hb => by rw [Nat.mod_eq_of_lt hb], fun hb => by rw [Nat.mod_eq_of_lt hb]⟩
  · intro hres
    have hne : ¬ (h.HWResolution.1 = 100 ∧ h.HWResolution.2 = 100) := by
      rintro ⟨a, b⟩
      exact hres (Prod.ext a b)
    simp [default_resolution, hne]
  · intro fp h1 hr
    have hp := parse_pdf_header_options_preserves fp _ h1 hr
    refine ⟨?_, ?_, ?_⟩ <;> rw [hp]

/-- The amended C6 at the Letter header: 300x300, 2550 by 3300 pixels. -/
theorem default_resolution_fallback_witness :
    (default_resolution none letter_header).HWResolution = (300, 300) ∧
    (add_pdf_header_options (default_resolution none letter_header) []).head? =
      some "-r300x300" ∧
    (default_resolution none letter_header).cupsWidth = 300 * 612 / 72 ∧
    (default_resolution none letter_header).cupsHeight = 300 * 792 / 72 ∧
    default_resolution none { letter_header with HWResolution := (600, 600) } =
      { letter_header with HWResolution := (600, 600) } :=
  ⟨((default_resolution_fallback none letter_header).1 rfl (Or.inl rfl)).1,
    ((default_resolution_fallback none letter_header).1 rfl (Or.inl rfl)).2.1,
    ((default_resolution_fallback none letter_header).1 rfl (Or.inl rfl)).2.2.1 (by decide),
    ((default_resolution_fallback none letter_header).1 rfl (Or.inl rfl)).2.2.2 (by decide),
    (default_resolution_fallback none { letter_header with HWResolution := (600, 600) }).2.1
      (by decide)⟩

/-! ## C7: the collation directive -/

/-- C7 fails on the code: on the document with the directives "NumCopies : 3"
and "Collate : true" the scan sets `NumCopies` to 3 but `Collate` to false,
although the header held true before. -/
theorem collate_true_directive_gives_false :
    letter_header.Collate = true ∧
    parse_pdf_header_options directives_document letter_header =
      Outcome.returned { letter_header with NumCopies := 3, Collate := false } := by
  decide

/-! ## C8: the resolution attribute -/

/-- C8 fails on the code: with `DefaultResolution` "600x1200dpi" the second
axis is read from the 'x' itself, parses to 0 and is replaced by the first
axis: the resolution becomes 600x600 and the height `600 * 792 / 72`. -/
theorem second_axis_not_parsed :
    (default_resolution (some ⟨some (bytes "600x1200dpi")⟩) letter_header).HWResolution =
      (600, 600) ∧
    (default_resolution (some ⟨some (bytes "600x1200dpi")⟩) letter_header).cupsWidth = 5100 ∧
    (default_resolution (some ⟨some (bytes "600x1200dpi")⟩) letter_header).cupsHeight =
      6600 := by
  decide

/-! ## C9: lines that are not well-formed directives -/

/-- C9, as stated, fails: the copy-count directive "abc" of
`bad_copies_document` changes `NumCopies` from 1 to 0. -/
theorem bad_copies_changes_numcopies :
    letter_header.NumCopies = 1 ∧
    parse_pdf_header_options bad_copies_document letter_header =
      Outcome.returned { letter_header with NumCopies := 0 } := by
  decide

/-- C9, as amended.  (a) When no scanned line starts with a directive keyword
that lacks its ':' separator, `parse_pdf_header_options` returns.  (b) A line
matching neither keyword leaves the header, so `NumCopies` and `Collate`,
unchanged.  (c) A copy-count directive whose value holds no digit sets
`NumCopies` to 0 and leaves everything else unchanged.  (d) What follows the
20th line after the marker line never reaches the scan: the result is the same
for every continuation of the document. -/
theorem malformed_directive_lines :
    (∀ (fp : List Nat) (h : mupdf_page_header),
      (∀ buf ∈ scanned_lines fp, missing_separator buf = false) →
      ∃ h1, parse_pdf_header_options fp h = Outcome.returned h1) ∧
    (∀ (buf : List Nat) (h : mupdf_page_header),
      strncmp buf (bytes "%%PDFTOPDFNumCopies") 19 ≠ 0 →
      strncmp buf (bytes "%%PDFTOPDFCollate") 17 ≠ 0 →
      directive_line buf h = Outcome.returned h) ∧
    (∀ (buf p : List Nat) (h : mupdf_page_header),
      strncmp buf (bytes "%%PDFTOPDFNumCopies") 19 = 0 →
      strchr (buf.drop 19) 58 = some p →
      (∀ c ∈ p.tail, ¬ (48 ≤ c ∧ c ≤ 57)) →
      directive_line buf h = Outcome.returned { h with NumCopies := 0 }) ∧
    (∀ (pre : List Nat) (bodies : List (List Nat)) (rest rest1 : List Nat)
      (h : mupdf_page_header),
      (∀ X : List Nat,
        skip_until_marker ((pre ++ X).length + 1) (pre ++ X) = Outcome.returned X) →
      (∀ b ∈ bodies, 10 ∉ b) → PDF_MAX_CHECK_COMMENT_LINES ≤ bodies.length →
      parse_pdf_header_options (pre ++ (unlines bodies ++ rest)) h =
        parse_pdf_header_options (pre ++ (unlines bodies ++ rest1)) h) := by
  refine ⟨?_, ?_, ?_, ?_⟩
  · intro fp h hsep
    obtain ⟨r, hr⟩ := skip_until_marker_total (fp.length + 1) fp (Nat.lt_succ_self _)
    unfold scanned_lines at hsep
    unfold parse_pdf_header_options
    rw [hr] at hsep ⊢
    obtain ⟨h1, hs, _⟩ := scan_directives_returns _ r h hsep
    exact ⟨h1, hs⟩
  · intro buf h hn hc
    simp [directive_line, hn, hc]
  · intro buf p h hn hp hd
    have h0 : toUnsigned 0 = 0 := by decide
    simp [directive_line, hn, hp, atoi_no_digit p.tail hd, h0]
  · intro pre bodies rest rest1 h hpre hb hlen
    unfold parse_pdf_header_options
    rw [hpre, hpre]
    exact scan_directives_local _ bodies rest rest1 h hb hlen

/-- The four parts of the amended C9 at concrete lines and documents. -/
theorem malformed_directive_lines_witness :
    (∃ h1, parse_pdf_header_options directives_document letter_header = Outcome.returned h1) ∧
    directive_line (bytes "%%Title: report\n") letter_header = Outcome.returned letter_header ∧
    directive_line (bytes "%%PDFTOPDFNumCopies: abc\n") letter_header =
      Outcome.returned { letter_header with NumCopies := 0 } ∧
    parse_pdf_header_options
        (bytes "%PDF-1.4\n" ++
          (unlines (List.replicate 20 []) ++ bytes "%%PDFTOPDFNumCopies : 7\n"))
        letter_header =
      parse_pdf_header_options (bytes "%PDF-1.4\n" ++ (unlines (List.replicate 20 []) ++ []))
        letter_header :=
  ⟨malformed_directive_lines.1 directives_document letter_header (by decide),
    malformed_directive_lines.2.1 _ _ (by decide) (by decide),
    malformed_directive_lines.2.2.1 _ (bytes ": abc\n") _ (by decide) (by decide) (by decide),
    malformed_directive_lines.2.2.2 _ (List.replicate 20 []) _ _ _ marker_line_skipped
      (by decide) (by decide)⟩

/-! ## C10: cancellation -/

/-- C10 fails on the code: when cancellation is detected after the engine has
been reaped, `kill` is called with the pid variable already set to -1, and
then with the relay's pid. -/
theorem cancel_signals_reaped_pid :
    (mutool_spawn "mutool" ["mutool"] cancel_after_engine_reaped).events =
      [Event.fork_mutool "mutool" ["mutool"], Event.fork_logging, Event.wait, Event.wait,
        Event.kill (-1) SIGTERM, Event.kill 1002 SIGTERM] ∧
    (mutool_spawn "mutool" ["mutool"] cancel_after_engine_reaped).mutoolpid = -1 ∧
    (mutool_spawn "mutool" ["mutool"] cancel_after_engine_reaped).errpid = -1 := by
  decide

end MuPdfToRaster
